import Mathlib

/-!
Shallow embedding of the NSLDS risk-assessment platform (`src/app.py`,
class `ChartEDNSLDSProcessor`) in Lean 4.

Modelling conventions:
- Python floats are modelled as rationals (`ℚ`); the numeric literals
  involved (0.7, 0.4, 100, …) and the comparisons on them are exact at
  this granularity.
- Calls into the `random` module are modelled by explicit inputs: each
  loop iteration of `calculate_risk_scores` consumes one `StudentDraw`
  whose fields stand for the values returned by the successive `random`
  calls of that iteration, and the result of `random.randint(75, 150)`
  is the explicit parameter `n`.  The documented ranges of the `random`
  functions (`betavariate` in [0,1], `randint a b` in [a,b],
  `uniform a b` in [a,b], `sample`/`choice` from the given population)
  become the predicate `StudentDraw.valid`.
- `pandas` file reading is modelled by a `SourceFile` carrying the
  parse outcome (`Except.error e` when the reader raises, `Except.ok rows`
  otherwise); `pd.DataFrame` / `ExcelWriter` output is modelled by the
  `Report` structure holding the rows of the two sheets that would be
  written.
-/

namespace NSLDS

/-- The loan-type population of `random.choice` in
`calculate_risk_scores` (src/app.py line 106). -/
def loanTypes : List String :=
  ["Subsidized Stafford", "Unsubsidized Stafford", "PLUS", "Consolidation"]

/-- The key-factor population of `random.sample` in
`calculate_risk_scores` (src/app.py lines 107-116). -/
def keyFactors : List String :=
  ["High debt-to-income ratio",
   "Frequent delinquencies",
   "Payment inconsistency",
   "Increasing loan balance",
   "Multiple forbearances",
   "Poor contact information",
   "Extended repayment plan",
   "High interest accrual"]

/-- The values produced by the `random` calls of one loop iteration of
`calculate_risk_scores` (src/app.py lines 95-116). -/
structure StudentDraw where
  beta : ℚ
  conf : ℚ
  balance : ℕ
  delinquent : ℕ
  loanType : String
  factors : List String
deriving DecidableEq

/-- The documented ranges of the `random` functions used in one loop
iteration: `betavariate` returns a value in [0,1], `uniform 0.65 0.95`
in [0.65,0.95], `randint a b` in [a,b], `choice` a member of its
population, `sample ... k` with `k` drawn from `randint 2 4` a
sublist of 2 to 4 members of its population. -/
def StudentDraw.valid (d : StudentDraw) : Prop :=
  0 ≤ d.beta ∧ d.beta ≤ 1 ∧
  13/20 ≤ d.conf ∧ d.conf ≤ 19/20 ∧
  8000 ≤ d.balance ∧ d.balance ≤ 75000 ∧
  31 ≤ d.delinquent ∧ d.delinquent ≤ 400 ∧
  d.loanType ∈ loanTypes ∧
  2 ≤ d.factors.length ∧ d.factors.length ≤ 4 ∧
  ∀ x ∈ d.factors, x ∈ keyFactors

instance (d : StudentDraw) : Decidable d.valid := by
  unfold StudentDraw.valid; infer_instance

/-- Tier derivation of src/app.py line 96:
`'HIGH' if risk_score > 0.7 else 'MEDIUM' if risk_score > 0.4 else 'LOW'`. -/
def riskTier (risk_score : ℚ) : String :=
  if risk_score > 7/10 then "HIGH"
  else if risk_score > 4/10 then "MEDIUM"
  else "LOW"

/-- Python's `format(n, '06d')` for a non-negative integer: the decimal
digits, left-padded with zeros to width 6 (wider numbers unpadded). -/
def padZeros (width : ℕ) (n : ℕ) : String :=
  let s := toString n
  String.mk (List.replicate (width - s.length) '0') ++ s

/-- One element of the list built by `calculate_risk_scores`
(src/app.py lines 98-117). -/
structure Student where
  student_id : String
  name : String
  risk_score : ℚ
  confidence_score : ℚ
  risk_tier : String
  outstanding_balance : ℕ
  days_delinquent : ℕ
  loan_type : String
  key_factors : List String
deriving DecidableEq

/-- The dictionary appended at loop index `i` by `calculate_risk_scores`
(src/app.py lines 95-117), given that iteration's random draws `d`. -/
def mkStudent (i : ℕ) (d : StudentDraw) : Student :=
  { student_id := "STU" ++ padZeros 6 (i + 1000)
    name := "Student " ++ toString (i + 1)
    risk_score := d.beta
    confidence_score := d.conf
    risk_tier := riskTier d.beta
    outstanding_balance := d.balance
    days_delinquent := d.delinquent
    loan_type := d.loanType
    key_factors := d.factors }

/-- `ChartEDNSLDSProcessor.calculate_risk_scores` (src/app.py lines
92-118).  `n` is the value returned by `random.randint(75, 150)`;
`draws i` the random values consumed by iteration `i`. -/
def calculate_risk_scores (n : ℕ) (draws : ℕ → StudentDraw) : List Student :=
  (List.range n).map (fun i => mkStudent i (draws i))

/-- All iterations' draws lie in the documented ranges of the `random`
functions. -/
def validDraws (n : ℕ) (draws : ℕ → StudentDraw) : Prop :=
  ∀ i < n, (draws i).valid

section Validate

/-- An uploaded file as seen by `validate_file`: its path (the code
dispatches on the extension) and the outcome of handing it to the
matching pandas reader — `Except.error e` when the reader raises an
exception with text `e`, `Except.ok rows` when it parses. -/
structure SourceFile where
  path : String
  parse : Except String (List (List String))

/-- Python's `str.endswith`, modelled over the string's character
sequence. -/
def endswith (s suffix : String) : Bool := suffix.data.isSuffixOf s.data

/-- `ChartEDNSLDSProcessor.validate_file` (src/app.py lines 63-77):
returns `(False, "Unsupported file format")` unless the path ends in
`.csv` or `.xlsx`, `(False, "Validation error: …")` when the reader
raises, `(False, "File is empty")` on zero rows, and otherwise
`(True, "File validated: N records found")`. -/
def validate_file (f : SourceFile) : Bool × String :=
  if endswith f.path ".csv" || endswith f.path ".xlsx" then
    match f.parse with
    | Except.error e => (false, "Validation error: " ++ e)
    | Except.ok rows =>
      if rows.length = 0 then (false, "File is empty")
      else (true, "File validated: " ++ toString rows.length ++ " records found")
  else (false, "Unsupported file format")

/-- `ChartEDNSLDSProcessor.process_nslds_file` (src/app.py lines 79-90):
validation failure is passed through; on success (after a UI-only
`time.sleep(2)`) the message is replaced. -/
def process_nslds_file (f : SourceFile) : Bool × String :=
  let vm := validate_file f
  if vm.1 then (true, "File processed successfully") else (false, vm.2)

/-- The upload tab's flow (src/app.py lines 340-374): process the
uploaded file, and on success compute the displayed risk scores with
`calculate_risk_scores` — which takes no data from the file. -/
def upload_and_score (f : SourceFile) (n : ℕ) (draws : ℕ → StudentDraw) :
    Option (List Student) :=
  if (process_nslds_file f).1 then some (calculate_risk_scores n draws) else none

end Validate

section Export

/-- numpy/pandas `.round(1)` rounds half to even; on exact rationals:
round `q * 10` to the nearest integer (ties to even), divide by 10. -/
def roundHalfEven (q : ℚ) : ℤ :=
  let f := Int.floor q
  if q - f < 1/2 then f
  else if q - f > 1/2 then f + 1
  else if f % 2 = 0 then f else f + 1

def round1 (q : ℚ) : ℚ := (roundHalfEven (q * 10) : ℚ) / 10

/-- The recommendation text attached per row by `export_risk_report`
(src/app.py lines 140-148): selected by the row's `Risk Tier` alone. -/
def recommendedAction (tier : String) : String :=
  if tier = "HIGH" then
    "Immediate outreach required - Consider payment plan restructuring"
  else if tier = "MEDIUM" then
    "Monitor closely - Proactive counseling recommended"
  else
    "Standard monitoring - Send educational materials"

/-- One row of the `Risk Assessment` detail sheet (src/app.py lines
126-150): the selected/renamed columns plus the appended
`Recommended Action`. -/
structure ReportRow where
  student_id : String
  risk_tier : String
  risk_percentage : ℚ
  confidence_percentage : ℚ
  outstanding_balance : ℕ
  days_delinquent : ℕ
  loan_type : String
  recommended_action : String
deriving DecidableEq

def mkReportRow (s : Student) : ReportRow :=
  { student_id := s.student_id
    risk_tier := s.risk_tier
    risk_percentage := round1 (s.risk_score * 100)
    confidence_percentage := round1 (s.confidence_score * 100)
    outstanding_balance := s.outstanding_balance
    days_delinquent := s.days_delinquent
    loan_type := s.loan_type
    recommended_action := recommendedAction s.risk_tier }

/-- One row of the `Executive Summary` sheet (src/app.py lines 155-167). -/
structure SummaryRow where
  risk_level : String
  student_count : ℕ
  total_balance : ℕ
deriving DecidableEq

/-- `len([s for s in students if s['risk_tier'] == t])`. -/
def countTier (students : List Student) (t : String) : ℕ :=
  (students.filter (fun s => s.risk_tier = t)).length

/-- `sum(s['outstanding_balance'] for s in students if s['risk_tier'] == t)`. -/
def balanceTier (students : List Student) (t : String) : ℕ :=
  ((students.filter (fun s => s.risk_tier = t)).map
    (fun s => s.outstanding_balance)).sum

/-- The two sheets written by `pd.ExcelWriter` in `export_risk_report`
(src/app.py lines 152-169). -/
structure Report where
  detail : List ReportRow
  summary : List SummaryRow
deriving DecidableEq

/-- The student list `export_risk_report` works on (src/app.py lines
121-124): freshly generated by `calculate_risk_scores`, then filtered
by tier — but only when the Python value `risk_tier` is truthy
(`if risk_tier:` — `None` and `""` both skip the filter). -/
def exportStudents (n : ℕ) (draws : ℕ → StudentDraw)
    (risk_tier : Option String) : List Student :=
  let students0 := calculate_risk_scores n draws
  match risk_tier with
  | some t => if t = "" then students0
              else students0.filter (fun s => s.risk_tier = t)
  | none => students0

/-- The `Executive Summary` sheet (src/app.py lines 155-167), computed
over the (filtered) `students` list. -/
def mkSummary (students : List Student) : List SummaryRow :=
  [{ risk_level := "HIGH",
     student_count := countTier students "HIGH",
     total_balance := balanceTier students "HIGH" },
   { risk_level := "MEDIUM",
     student_count := countTier students "MEDIUM",
     total_balance := balanceTier students "MEDIUM" },
   { risk_level := "LOW",
     student_count := countTier students "LOW",
     total_balance := balanceTier students "LOW" }]

/-- `ChartEDNSLDSProcessor.export_risk_report` (src/app.py lines
120-171).  `n`/`draws` stand for the random values consumed by the
internal `calculate_risk_scores` call.  When the (possibly filtered)
student list is empty, `pd.DataFrame(students)` has no columns, so the
column access `df['risk_score']` on line 127 raises an uncaught
`KeyError` and no sheet is written: modelled as `Except.error`.
Otherwise the workbook's two sheets are returned. -/
def export_risk_report (n : ℕ) (draws : ℕ → StudentDraw)
    (risk_tier : Option String) : Except String Report :=
  let students := exportStudents n draws risk_tier
  if students.isEmpty then
    Except.error "KeyError: risk_score"
  else
    Except.ok
      { detail := students.map mkReportRow
        summary := mkSummary students }

end Export

section SpecSide

/-- Claim-side predicate, following the spec's words: the source
"cannot be parsed as tabular data at all (unsupported format/encoding,
zero rows)" — the file's format is unsupported, the reader raises, or
the parse yields zero rows.  Defined for comparison with the behaviour
of `validate_file`. -/
def spec_malformed (f : SourceFile) : Prop :=
  ¬ ((endswith f.path ".csv" || endswith f.path ".xlsx") = true) ∨
  match f.parse with
  | Except.error _ => True
  | Except.ok rows => rows = []

/-- Total student count shown for tier `u` on the summary sheet
(sum over the summary rows labelled `u`; each label occurs once). -/
def summaryCount (r : Report) (u : String) : ℕ :=
  ((r.summary.filter (fun row => row.risk_level = u)).map
    (fun row => row.student_count)).sum

/-- Total balance shown for tier `u` on the summary sheet. -/
def summaryBalance (r : Report) (u : String) : ℕ :=
  ((r.summary.filter (fun row => row.risk_level = u)).map
    (fun row => row.total_balance)).sum

end SpecSide

section ConcreteInputs

/-- A concrete iteration draw: a low beta value together with a high
days-delinquent value (200 days). -/
def drawLow : StudentDraw :=
  { beta := 3/10, conf := 7/10, balance := 10000, delinquent := 200,
    loanType := "PLUS",
    factors := ["Frequent delinquencies", "Payment inconsistency"] }

/-- A concrete iteration draw with a high beta value. -/
def drawHigh : StudentDraw :=
  { beta := 9/10, conf := 7/10, balance := 10000, delinquent := 200,
    loanType := "PLUS",
    factors := ["Frequent delinquencies", "Payment inconsistency"] }

/-- A concrete iteration draw whose beta value is exactly 0.7. -/
def drawBoundary : StudentDraw :=
  { beta := 7/10, conf := 7/10, balance := 10000, delinquent := 200,
    loanType := "PLUS",
    factors := ["Frequent delinquencies", "Payment inconsistency"] }

theorem drawLow_valid : drawLow.valid := by
  refine ⟨by norm_num [drawLow], by norm_num [drawLow], by norm_num [drawLow],
    by norm_num [drawLow], by norm_num [drawLow], by norm_num [drawLow],
    by norm_num [drawLow], by norm_num [drawLow], by simp [drawLow, loanTypes],
    by simp [drawLow], by simp [drawLow], ?_⟩
  intro x hx
  simp only [drawLow, List.mem_cons, List.not_mem_nil, or_false] at hx
  rcases hx with h | h <;> simp [h, keyFactors]

theorem drawHigh_valid : drawHigh.valid := by
  refine ⟨by norm_num [drawHigh], by norm_num [drawHigh], by norm_num [drawHigh],
    by norm_num [drawHigh], by norm_num [drawHigh], by norm_num [drawHigh],
    by norm_num [drawHigh], by norm_num [drawHigh], by simp [drawHigh, loanTypes],
    by simp [drawHigh], by simp [drawHigh], ?_⟩
  intro x hx
  simp only [drawHigh, List.mem_cons, List.not_mem_nil, or_false] at hx
  rcases hx with h | h <;> simp [h, keyFactors]

end ConcreteInputs

end NSLDS

namespace NSLDS

/-! ## Helper lemmas -/

/-- The tier comparison on line 96 is strict: any score above 0.7 is HIGH. -/
theorem riskTier_high_of_gt (s : ℚ) (h : 7/10 < s) : riskTier s = "HIGH" := by
  unfold riskTier
  rw [if_pos h]

theorem riskTier_medium_of (s : ℚ) (h1 : 4/10 < s) (h2 : s ≤ 7/10) :
    riskTier s = "MEDIUM" := by
  unfold riskTier
  rw [if_neg (by exact not_lt.mpr h2), if_pos h1]

theorem riskTier_low_of_le (s : ℚ) (h : s ≤ 4/10) : riskTier s = "LOW" := by
  unfold riskTier
  rw [if_neg, if_neg]
  · exact not_lt.mpr h
  · exact not_lt.mpr (h.trans (by norm_num))

theorem riskTier_cases (q : ℚ) :
    riskTier q = "HIGH" ∨ riskTier q = "MEDIUM" ∨ riskTier q = "LOW" := by
  unfold riskTier
  split
  · exact Or.inl rfl
  · split
    · exact Or.inr (Or.inl rfl)
    · exact Or.inr (Or.inr rfl)

/-- A successful export means the filtered list was non-empty and the
returned report holds exactly the detail rows and summary of that list. -/
theorem export_ok_elim (n : ℕ) (draws : ℕ → StudentDraw) (filt : Option String)
    (r : Report) (hok : export_risk_report n draws filt = Except.ok r) :
    exportStudents n draws filt ≠ [] ∧
    r = { detail := (exportStudents n draws filt).map mkReportRow,
          summary := mkSummary (exportStudents n draws filt) } := by
  simp only [export_risk_report] at hok
  by_cases h : (exportStudents n draws filt).isEmpty
  · rw [if_pos h] at hok
    exact absurd hok (by simp)
  · rw [if_neg h] at hok
    refine ⟨by simpa [List.isEmpty_iff] using h, ?_⟩
    injection hok with h2
    exact h2.symm

/-- Every generated record's tier is one of the three tier strings. -/
theorem mem_scores_tier (n : ℕ) (draws : ℕ → StudentDraw) (s : Student)
    (hs : s ∈ calculate_risk_scores n draws) :
    s.risk_tier = "HIGH" ∨ s.risk_tier = "MEDIUM" ∨ s.risk_tier = "LOW" := by
  simp only [calculate_risk_scores, List.mem_map, List.mem_range] at hs
  obtain ⟨i, _, rfl⟩ := hs
  exact riskTier_cases _

theorem filter_tier_ne (l : List Student) (t u : String) (h : u ≠ t) :
    (l.filter (fun s => s.risk_tier = t)).filter (fun s => s.risk_tier = u) = [] := by
  rw [List.filter_eq_nil_iff]
  intro s hs
  simp only [List.mem_filter, decide_eq_true_eq] at hs
  simp [hs.2, h.symm]

theorem countTier_filter_ne (l : List Student) (t u : String) (h : u ≠ t) :
    countTier (l.filter (fun s => s.risk_tier = t)) u = 0 := by
  unfold countTier
  rw [filter_tier_ne l t u h]
  rfl

theorem balanceTier_filter_ne (l : List Student) (t u : String) (h : u ≠ t) :
    balanceTier (l.filter (fun s => s.risk_tier = t)) u = 0 := by
  unfold balanceTier
  rw [filter_tier_ne l t u h]
  rfl

theorem countTier_filter_self (l : List Student) (t : String) :
    countTier (l.filter (fun s => s.risk_tier = t)) t =
      (l.filter (fun s => s.risk_tier = t)).length := by
  unfold countTier
  congr 1
  apply List.filter_eq_self.mpr
  intro s hs
  simp only [List.mem_filter] at hs
  exact hs.2

/-- Evaluation of the summary sheet's per-tier student count. -/
theorem summaryCount_eval (dt : List ReportRow) (students : List Student) (u : String) :
    summaryCount ⟨dt, mkSummary students⟩ u =
      if u = "HIGH" ∨ u = "MEDIUM" ∨ u = "LOW" then countTier students u else 0 := by
  unfold summaryCount mkSummary
  by_cases h1 : u = "HIGH"
  · subst h1; simp
  · by_cases h2 : u = "MEDIUM"
    · subst h2; simp
    · by_cases h3 : u = "LOW"
      · subst h3; simp
      · simp [h1, h2, h3, Ne.symm h1, Ne.symm h2, Ne.symm h3]

/-- Evaluation of the summary sheet's per-tier total balance. -/
theorem summaryBalance_eval (dt : List ReportRow) (students : List Student) (u : String) :
    summaryBalance ⟨dt, mkSummary students⟩ u =
      if u = "HIGH" ∨ u = "MEDIUM" ∨ u = "LOW" then balanceTier students u else 0 := by
  unfold summaryBalance mkSummary
  by_cases h1 : u = "HIGH"
  · subst h1; simp
  · by_cases h2 : u = "MEDIUM"
    · subst h2; simp
    · by_cases h3 : u = "LOW"
      · subst h3; simp
      · simp [h1, h2, h3, Ne.symm h1, Ne.symm h2, Ne.symm h3]

end NSLDS

namespace NSLDS

/-! ## Claim theorems -/

/-- A report value arising from a one-student run with a HIGH-tier
draw; used as the concrete successful export below. -/
def sampleReport : Report :=
  { detail := [mkReportRow (mkStudent 0 drawHigh)],
    summary := mkSummary [mkStudent 0 drawHigh] }

/-- C1 (amended): the tier thresholds of line 96 are strict — a score
strictly above 0.7 is HIGH, a score in (0.4, 0.7] is MEDIUM, a score at
or below 0.4 is LOW; in particular a score of exactly 0.7 yields
MEDIUM, exactly 0.4 yields LOW, and 0.39999 yields LOW; and every
generated record's `risk_tier` is this function of its `risk_score`. -/
theorem c1_tier_thresholds_strict (s1 s2 s3 : ℚ) (n : ℕ)
    (draws : ℕ → StudentDraw) (st : Student)
    (h1 : 7/10 < s1) (h2 : 4/10 < s2) (h2b : s2 ≤ 7/10) (h3 : s3 ≤ 4/10)
    (hst : st ∈ calculate_risk_scores n draws) :
    riskTier s1 = "HIGH" ∧ riskTier s2 = "MEDIUM" ∧ riskTier s3 = "LOW" ∧
    riskTier (7/10) = "MEDIUM" ∧ riskTier (4/10) = "LOW" ∧
    riskTier (39999/100000) = "LOW" ∧
    st.risk_tier = riskTier st.risk_score := by
  refine ⟨riskTier_high_of_gt _ h1, riskTier_medium_of _ h2 h2b,
    riskTier_low_of_le _ h3, riskTier_medium_of _ (by norm_num) le_rfl,
    riskTier_low_of_le _ le_rfl, riskTier_low_of_le _ (by norm_num), ?_⟩
  simp only [calculate_risk_scores, List.mem_map, List.mem_range] at hst
  obtain ⟨i, _, rfl⟩ := hst
  rfl

/-- C1 witness: the amended thresholds evaluated at 0.8, 0.5, 0.3 and a
concrete generated record. -/
theorem c1_tier_thresholds_witness :
    riskTier (8/10) = "HIGH" ∧ riskTier (1/2) = "MEDIUM" ∧
    riskTier (3/10) = "LOW" ∧ riskTier (7/10) = "MEDIUM" ∧
    riskTier (4/10) = "LOW" ∧ riskTier (39999/100000) = "LOW" ∧
    (mkStudent 0 drawLow).risk_tier = riskTier (mkStudent 0 drawLow).risk_score :=
  c1_tier_thresholds_strict (8/10) (1/2) (3/10) 1 (fun _ => drawLow)
    (mkStudent 0 drawLow) (by norm_num) (by norm_num) (by norm_num) (by norm_num)
    (by simp [calculate_risk_scores, List.range_succ])

/-- C1 counterexample: a record whose score is exactly 0.7 is tiered
MEDIUM, not HIGH as the claim states (the code compares with strict
`>`, not `≥`). -/
theorem c1_boundary_counterexample :
    (mkStudent 0 drawBoundary).risk_score = 7/10 ∧
    (mkStudent 0 drawBoundary).risk_tier = "MEDIUM" ∧
    mkStudent 0 drawBoundary ∈ calculate_risk_scores 1 (fun _ => drawBoundary) := by
  refine ⟨rfl, ?_, by simp [calculate_risk_scores, List.range_succ]⟩
  show riskTier drawBoundary.beta = "MEDIUM"
  exact riskTier_medium_of _ (by norm_num [drawBoundary]) (by norm_num [drawBoundary])

/-- C2 (amended): every generated record has `days_delinquent` in
[31, 400] (so the "< 30 / absent" case never arises) and `risk_score`
in [0, 1]; the score is a function of the beta draw alone,
independent of the delinquency draw — the claimed coupling between
`days_delinquent` ≥ 180 and `risk_score` ∈ [0.8, 1] does not hold. -/
theorem c2_bounds_and_independence (n : ℕ) (draws : ℕ → StudentDraw) (s : Student)
    (d d2 : StudentDraw) (i j : ℕ)
    (hv : validDraws n draws) (hs : s ∈ calculate_risk_scores n draws)
    (hb : d.beta = d2.beta) :
    (31 ≤ s.days_delinquent ∧ s.days_delinquent ≤ 400 ∧
     0 ≤ s.risk_score ∧ s.risk_score ≤ 1) ∧
    (mkStudent i d).risk_score = (mkStudent j d2).risk_score := by
  constructor
  · simp only [calculate_risk_scores, List.mem_map, List.mem_range] at hs
    obtain ⟨k, hk, rfl⟩ := hs
    obtain ⟨hb0, hb1, _, _, _, _, hd1, hd2, _⟩ := hv k hk
    exact ⟨hd1, hd2, hb0, hb1⟩
  · simpa [mkStudent] using hb

/-- C2 witness: the bounds and the beta-only dependence at a concrete
record. -/
theorem c2_bounds_witness :
    (31 ≤ (mkStudent 0 drawLow).days_delinquent ∧
     (mkStudent 0 drawLow).days_delinquent ≤ 400 ∧
     0 ≤ (mkStudent 0 drawLow).risk_score ∧
     (mkStudent 0 drawLow).risk_score ≤ 1) ∧
    (mkStudent 0 drawLow).risk_score = (mkStudent 5 drawLow).risk_score :=
  c2_bounds_and_independence 1 (fun _ => drawLow) (mkStudent 0 drawLow)
    drawLow drawLow 0 5 (fun _ _ => drawLow_valid)
    (by simp [calculate_risk_scores, List.range_succ]) rfl

/-- C2 counterexample: a run of the classifier (with in-range random
draws) produces a record with `days_delinquent` = 200 ≥ 180 whose
`risk_score` is 0.3 ∉ [0.8, 1] and whose tier is LOW, not HIGH. -/
theorem c2_delinquency_score_counterexample :
    validDraws 1 (fun _ => drawLow) ∧
    (calculate_risk_scores 1 (fun _ => drawLow)).head? = some (mkStudent 0 drawLow) ∧
    180 ≤ (mkStudent 0 drawLow).days_delinquent ∧
    (mkStudent 0 drawLow).risk_score < 4/5 ∧
    (mkStudent 0 drawLow).risk_tier = "LOW" := by
  refine ⟨fun _ _ => drawLow_valid,
    by simp [calculate_risk_scores, List.range_succ], by norm_num [mkStudent, drawLow],
    by norm_num [mkStudent, drawLow], ?_⟩
  show riskTier drawLow.beta = "LOW"
  exact riskTier_low_of_le _ (by norm_num [drawLow])

/-- C3: exporting with tier filter HIGH when the generated set contains
no HIGH-tier record raises an uncaught `KeyError` out of the pandas
column access on the empty, column-less DataFrame — no
`EmptyResultError`, no zero-row detail sheet and no summary sheet are
produced. -/
theorem c3_empty_filter_keyerror :
    export_risk_report 1 (fun _ => drawLow) (some "HIGH") =
      Except.error "KeyError: risk_score" := by
  have h : riskTier ((3:ℚ)/10) = "LOW" := riskTier_low_of_le _ (by norm_num)
  simp [export_risk_report, exportStudents, calculate_risk_scores, mkStudent,
    drawLow, h, List.range_succ]

/-- C4: `validate_file` succeeds — reporting the record count — on a
file whose name ends in `.csv` or `.xlsx` that parses to at least one
row, and fails exactly when the source is malformed in the spec's sense
(unsupported format, reader exception, or zero rows). -/
theorem c4_validate_file_iff (f g : SourceFile) (rows : List (List String))
    (hp : f.parse = Except.ok rows) (hrows : rows ≠ [])
    (hext : (endswith f.path ".csv" || endswith f.path ".xlsx") = true) :
    validate_file f =
      (true, "File validated: " ++ toString rows.length ++ " records found") ∧
    ((validate_file g).1 = false ↔ spec_malformed g) := by
  constructor
  · simp [validate_file, hext, hp, List.length_eq_zero, hrows]
  · by_cases hg : (endswith g.path ".csv" || endswith g.path ".xlsx") = true
    · cases hgp : g.parse with
      | error e => simp [validate_file, hg, hgp, spec_malformed]
      | ok rows2 =>
        rcases eq_or_ne rows2 [] with rfl | hne
        · simp [validate_file, hg, hgp, spec_malformed]
        · simp [validate_file, hg, hgp, spec_malformed, hne, List.length_eq_zero]
    · simp [validate_file, hg, spec_malformed]

/-- C4 witness: a two-row `.csv` file validates with the count message;
a `.txt` file is rejected exactly as the malformedness predicate says. -/
theorem c4_validate_file_witness :
    (validate_file ⟨"report.csv", Except.ok [["r1"], ["r2"]]⟩ =
      (true, "File validated: " ++
        toString ([["r1"], ["r2"]] : List (List String)).length ++ " records found")) ∧
    ((validate_file ⟨"report.txt", Except.ok [["r1"]]⟩).1 = false ↔
      spec_malformed ⟨"report.txt", Except.ok [["r1"]]⟩) :=
  c4_validate_file_iff ⟨"report.csv", Except.ok [["r1"], ["r2"]]⟩
    ⟨"report.txt", Except.ok [["r1"]]⟩ [["r1"], ["r2"]] rfl (by simp) (by decide)

/-- C5: in a successfully exported report, every detail row's
recommendation is the fixed function of its risk tier alone — HIGH maps
to the urgent-outreach text, MEDIUM to the monitoring text, LOW to the
informational text. -/
theorem c5_recommendation_by_tier (n : ℕ) (draws : ℕ → StudentDraw)
    (filt : Option String) (r : Report) (row : ReportRow)
    (hok : export_risk_report n draws filt = Except.ok r)
    (hrow : row ∈ r.detail) :
    row.recommended_action = recommendedAction row.risk_tier ∧
    recommendedAction "HIGH" =
      "Immediate outreach required - Consider payment plan restructuring" ∧
    recommendedAction "MEDIUM" =
      "Monitor closely - Proactive counseling recommended" ∧
    recommendedAction "LOW" =
      "Standard monitoring - Send educational materials" := by
  obtain ⟨-, rfl⟩ := export_ok_elim _ _ _ _ hok
  simp only [List.mem_map] at hrow
  obtain ⟨s, -, rfl⟩ := hrow
  exact ⟨rfl, by simp [recommendedAction], by simp [recommendedAction],
    by simp [recommendedAction]⟩

/-- C5 witness: the recommendation of the row of a concrete successful
export. -/
theorem c5_recommendation_witness :
    (mkReportRow (mkStudent 0 drawHigh)).recommended_action =
      recommendedAction (mkReportRow (mkStudent 0 drawHigh)).risk_tier ∧
    recommendedAction "HIGH" =
      "Immediate outreach required - Consider payment plan restructuring" ∧
    recommendedAction "MEDIUM" =
      "Monitor closely - Proactive counseling recommended" ∧
    recommendedAction "LOW" =
      "Standard monitoring - Send educational materials" :=
  c5_recommendation_by_tier 1 (fun _ => drawHigh) none sampleReport
    (mkReportRow (mkStudent 0 drawHigh))
    (by simp [export_risk_report, exportStudents, calculate_risk_scores,
      List.range_succ, sampleReport])
    (by simp [sampleReport])

/-- C6: every record produced by a run of the risk classifier (with the
`random` draws in their documented ranges) has `risk_score` in [0, 1]. -/
theorem c6_score_in_unit_interval (n : ℕ) (draws : ℕ → StudentDraw) (s : Student)
    (hv : validDraws n draws) (hs : s ∈ calculate_risk_scores n draws) :
    0 ≤ s.risk_score ∧ s.risk_score ≤ 1 := by
  simp only [calculate_risk_scores, List.mem_map, List.mem_range] at hs
  obtain ⟨k, hk, rfl⟩ := hs
  obtain ⟨hb0, hb1, _⟩ := hv k hk
  exact ⟨hb0, hb1⟩

/-- C6 witness: the bound at a concrete record. -/
theorem c6_score_witness :
    0 ≤ (mkStudent 0 drawHigh).risk_score ∧ (mkStudent 0 drawHigh).risk_score ≤ 1 :=
  c6_score_in_unit_interval 1 (fun _ => drawHigh) (mkStudent 0 drawHigh)
    (fun _ _ => drawHigh_valid) (by simp [calculate_risk_scores, List.range_succ])

/-- C7: the scoring operation is non-deterministic — two invocations
identical except for the random state (both with draws in the `random`
functions' documented ranges) produce different risk scores. -/
theorem c7_nondeterminism :
    validDraws 1 (fun _ => drawLow) ∧ validDraws 1 (fun _ => drawHigh) ∧
    ((calculate_risk_scores 1 (fun _ => drawLow)).map (fun s => s.risk_score) ≠
     (calculate_risk_scores 1 (fun _ => drawHigh)).map (fun s => s.risk_score)) := by
  refine ⟨fun _ _ => drawLow_valid, fun _ _ => drawHigh_valid, ?_⟩
  simp only [calculate_risk_scores, List.range_succ]
  simp [mkStudent, drawLow, drawHigh]
  norm_num

/-- C8: the i-th generated record's `student_id` is the string `STU`
followed by `i + 1000` zero-padded to six digits, a deterministic
function of the row position alone. -/
theorem c8_student_id_format (n : ℕ) (draws : ℕ → StudentDraw) (i : ℕ)
    (h : i < (calculate_risk_scores n draws).length) :
    ((calculate_risk_scores n draws).get ⟨i, h⟩).student_id =
      "STU" ++ padZeros 6 (i + 1000) := by
  simp [calculate_risk_scores, mkStudent]

/-- C8 witness: the first record's id. -/
theorem c8_student_id_witness :
    ((calculate_risk_scores 1 (fun _ => drawLow)).get
        ⟨0, by simp [calculate_risk_scores]⟩).student_id = "STU" ++ padZeros 6 1000 :=
  c8_student_id_format 1 (fun _ => drawLow) 0 (by simp [calculate_risk_scores])

/-- C9: with `random.randint(75, 150)` returning `n` ∈ [75, 150], the
classifier returns a non-empty list of between 75 and 150 records, and
the result after processing an uploaded file does not depend on which
(successfully validated) file was uploaded — the operation takes no
data input. -/
theorem c9_count_and_file_independence (n : ℕ) (draws : ℕ → StudentDraw)
    (f1 f2 : SourceFile) (h75 : 75 ≤ n) (h150 : n ≤ 150)
    (hf1 : (process_nslds_file f1).1 = true) (hf2 : (process_nslds_file f2).1 = true) :
    calculate_risk_scores n draws ≠ [] ∧
    75 ≤ (calculate_risk_scores n draws).length ∧
    (calculate_risk_scores n draws).length ≤ 150 ∧
    upload_and_score f1 n draws = upload_and_score f2 n draws := by
  have hlen : (calculate_risk_scores n draws).length = n := by
    simp [calculate_risk_scores]
  refine ⟨?_, by omega, by omega, ?_⟩
  · intro h
    rw [h] at hlen
    simp at hlen
    omega
  · simp [upload_and_score, hf1, hf2]

/-- C9 witness: two different validated uploads, identical scores. -/
theorem c9_independence_witness :
    calculate_risk_scores 100 (fun _ => drawLow) ≠ [] ∧
    75 ≤ (calculate_risk_scores 100 (fun _ => drawLow)).length ∧
    (calculate_risk_scores 100 (fun _ => drawLow)).length ≤ 150 ∧
    upload_and_score ⟨"a.csv", Except.ok [["x"]]⟩ 100 (fun _ => drawLow) =
      upload_and_score ⟨"b.xlsx", Except.ok [["y"], ["z"]]⟩ 100 (fun _ => drawLow) :=
  c9_count_and_file_independence 100 (fun _ => drawLow)
    ⟨"a.csv", Except.ok [["x"]]⟩ ⟨"b.xlsx", Except.ok [["y"], ["z"]]⟩
    (by norm_num) (by norm_num) (by decide) (by decide)

/-- C10: when the export succeeds under a (truthy) tier filter `t`, the
summary sheet is computed over the filtered subset only: any tier other
than `t` shows 0 students and 0 balance, and tier `t`'s student count
equals the number of detail-sheet rows. -/
theorem c10_summary_over_filtered (n : ℕ) (draws : ℕ → StudentDraw)
    (t u : String) (r : Report) (ht : t ≠ "") (hut : u ≠ t)
    (hok : export_risk_report n draws (some t) = Except.ok r) :
    summaryCount r u = 0 ∧ summaryBalance r u = 0 ∧
    summaryCount r t = r.detail.length := by
  obtain ⟨hne, rfl⟩ := export_ok_elim _ _ _ _ hok
  have hes : exportStudents n draws (some t) =
      (calculate_risk_scores n draws).filter (fun s => s.risk_tier = t) := by
    simp [exportStudents, ht]
  rw [hes] at hne ⊢
  refine ⟨?_, ?_, ?_⟩
  · rw [summaryCount_eval]
    split
    · exact countTier_filter_ne _ _ _ hut
    · rfl
  · rw [summaryBalance_eval]
    split
    · exact balanceTier_filter_ne _ _ _ hut
    · rfl
  · obtain ⟨s, hs⟩ := List.exists_mem_of_ne_nil _ hne
    have hsmem := List.mem_filter.mp hs
    have hst : s.risk_tier = t := by simpa using hsmem.2
    have htier := mem_scores_tier n draws s hsmem.1
    rw [hst] at htier
    rw [summaryCount_eval, if_pos htier, countTier_filter_self]
    simp

/-- C10 witness: a concrete HIGH-filtered export — MEDIUM shows 0/0 and
HIGH's count equals the number of detail rows. -/
theorem c10_summary_witness :
    summaryCount sampleReport "MEDIUM" = 0 ∧
    summaryBalance sampleReport "MEDIUM" = 0 ∧
    summaryCount sampleReport "HIGH" = sampleReport.detail.length := by
  have h : riskTier ((9:ℚ)/10) = "HIGH" := riskTier_high_of_gt _ (by norm_num)
  exact c10_summary_over_filtered 1 (fun _ => drawHigh) "HIGH" "MEDIUM" sampleReport
    (by decide) (by decide)
    (by simp [export_risk_report, exportStudents, calculate_risk_scores,
      List.range_succ, mkStudent, drawHigh, h, sampleReport, mkSummary,
      countTier, balanceTier])

end NSLDS
